import Mathlib

set_option autoImplicit false

/-!
# Verification of the gatsbie Node.js SDK's request/normalization layer

This file gives a shallow embedding, in Lean 4, of the request pipeline of the
two client façades of the SDK:

* the captcha-solving client (`src/client.ts`, `src/errors.ts`) — modelled in
  the `Gatsbie` namespace, and
* the e-commerce ("Target") client (`src/target/client.ts`,
  `src/target/errors.ts`) — modelled in the `Target` namespace.

The embedding works over a model of parsed JSON values (`JValue`) and an
abstract per-call transport outcome (`FetchOutcome`) that stands for what the
`fetch` call and the subsequent `response.json()` did: resolved with a status
and a body-parse result, rejected with a JavaScript `Error`, or threw a
non-`Error` value.  Every function is translated from the TypeScript source:
JavaScript truthiness, property access, object-rest destructuring and
`JSON.stringify`'s dropping of `undefined`-valued keys are made explicit.
-/

/-- A parsed JSON value, the result of `response.json()`.  Object fields are
kept as an association list; lists produced by the JSON parser have unique
keys (the parser collapses duplicates), so lookup of the first match agrees
with JavaScript property access. -/
inductive JValue where
  | null
  | bool (b : Bool)
  | num (n : Int)
  | str (s : String)
  | arr (elems : List JValue)
  | obj (fields : List (String × JValue))

/-- First value bound to `key`, i.e. JavaScript property lookup on a parsed
JSON object (`none` = the property is `undefined`). -/
def lookupField : List (String × JValue) → String → Option JValue
  | [], _ => none
  | (k, v) :: rest, key => if k == key then some v else lookupField rest key

/-- Remove every binding of `key`; this is what object-rest destructuring
(`const { key, ...rest } = o`) leaves in `rest`. -/
def eraseField (fs : List (String × JValue)) (key : String) : List (String × JValue) :=
  fs.filter (fun kv => !(kv.1 == key))

/-- JavaScript property access `v.k` on a parsed JSON value: a field of an
object, and `undefined` (here `none`) on any non-object — except `null`,
whose property reads throw and are handled at each use site. -/
def jsProp : JValue → String → Option JValue
  | .obj fs, k => lookupField fs k
  | _, _ => none

/-- JavaScript truthiness of a parsed JSON value (`null`, `false`, `0` and
`""` are falsy; every object and array is truthy). -/
def jsTruthy : JValue → Bool
  | .null => false
  | .bool b => b
  | .num n => !(n == 0)
  | .str s => !(s == "")
  | .arr _ => true
  | .obj _ => true

/-- JavaScript string coercion, used where the source interpolates a value
into a template string.  Array rendering is approximated (never reached by
any modelled endpoint, which interpolate only strings). -/
def jvalToString : JValue → String
  | .null => "null"
  | .bool b => if b then "true" else "false"
  | .num n => toString n
  | .str s => s
  | .arr _ => ""
  | .obj _ => "[object Object]"

/-- The TypeScript pattern `(x as string) || d`: the value when truthy,
otherwise the default.  A truthy non-string is rendered with JavaScript
string coercion (as it would be when interpolated into the error message). -/
def jsOrDefaultStr (v : Option JValue) (d : String) : String :=
  match v with
  | some w => if jsTruthy w then jvalToString w else d
  | none => d

/-- JavaScript truthiness of an optional string input
(`undefined` and `""` are falsy). -/
def truthyOptStr : Option String → Bool
  | none => false
  | some s => !(s == "")

/-- JavaScript truthiness of an optional numeric input
(`undefined` and `0` are falsy). -/
def truthyOptInt : Option Int → Bool
  | none => false
  | some n => !(n == 0)

/-- The body-building pattern `if (request.x) body.k = request.x` for an
optional string input: the assignment happens only when the value is
truthy. -/
def optStrEntry (k : String) (v : Option String) : List (String × Option JValue) :=
  match v with
  | some s => if s == "" then [] else [(k, some (.str s))]
  | none => []

/-- As `optStrEntry`, for bodies modelled without `undefined` values. -/
def optStrField (k : String) (v : Option String) : List (String × JValue) :=
  match v with
  | some s => if s == "" then [] else [(k, .str s)]
  | none => []

/-- The pattern `if (request.x) body.k = request.x` for an optional numeric
input (`0` is falsy and omitted). -/
def optIntField (k : String) (v : Option Int) : List (String × JValue) :=
  match v with
  | some n => if n == 0 then [] else [(k, .num n)]
  | none => []

/-- The `JSON.stringify` of a built body object: keys whose value is
`undefined` are omitted from the serialized wire body. -/
def stringifyBody (body : List (String × Option JValue)) : List (String × JValue) :=
  body.filterMap (fun kv => kv.2.map (fun v => (kv.1, v)))

/-- A JavaScript `Error` instance observed by `catch` — its `name` and
`message` (e.g. `AbortError`, `SyntaxError`, `TypeError`, network errors). -/
structure JsError where
  name : String
  message : String
deriving DecidableEq, Repr

/-- Message of the `TypeError` thrown when reading a property of `null`.
(V8 quotes the property name; the quotes are elided here.) -/
def nullReadMsg (k : String) : String :=
  "Cannot read properties of null (reading " ++ k ++ ")"

/-- Message of the `TypeError` thrown when reading a property of `undefined`. -/
def undefReadMsg (k : String) : String :=
  "Cannot read properties of undefined (reading " ++ k ++ ")"

/-- Message of the `TypeError` thrown when destructuring `undefined`. -/
def destructureUndefMsg (k : String) : String :=
  "Cannot destructure property " ++ k ++ " of undefined"

/-- Message of the `TypeError` thrown when destructuring `null`. -/
def destructureNullMsg (k : String) : String :=
  "Cannot destructure property " ++ k ++ " of null"

/-- What the per-call `fetch` + `response.json()` pair did, abstracting the
network.  `completed status body` is a settled HTTP response whose text was
fed to the JSON parser (`body = .error m`: the parser rejected with a
`SyntaxError` carrying message `m`).  `fetchError name message` is `fetch`
(or the body read) rejecting with an `Error` — `name = "AbortError"` is the
timeout cancellation.  `thrownNonError` is a thrown non-`Error` value. -/
inductive FetchOutcome where
  | completed (status : Nat) (body : Except String JValue)
  | fetchError (name message : String)
  | thrownNonError

/-- The `response.ok`: the HTTP status is in the success range. -/
def responseOk (status : Nat) : Bool :=
  decide (200 ≤ status ∧ status < 300)

namespace Gatsbie

/-- The `APIError` of the captcha client (`src/errors.ts`).  `message` is the
formatted message built by the constructor. -/
structure APIError where
  code : String
  message : String
  details : Option JValue
  timestamp : Option JValue
  httpStatus : Option Nat

/-- The `APIError` constructor: formats the message
(`gatsbie: <code>: <message>` with the details appended when truthy) and
stores the fields. -/
def APIError.make (code message : String) (details : Option JValue)
    (timestamp : Option JValue) (httpStatus : Option Nat) : APIError :=
  let formatted :=
    match details with
    | some d =>
        if jsTruthy d then
          "gatsbie: " ++ code ++ ": " ++ message ++ " (" ++ jvalToString d ++ ")"
        else
          "gatsbie: " ++ code ++ ": " ++ message
    | none => "gatsbie: " ++ code ++ ": " ++ message
  { code := code, message := formatted, details := details,
    timestamp := timestamp, httpStatus := httpStatus }

/-- The `APIError.isAuthError`: the code equals `AUTH_FAILED`. -/
def APIError.isAuthError (e : APIError) : Bool :=
  e.code == "AUTH_FAILED"

/-- The `APIError.isInsufficientCredits`. -/
def APIError.isInsufficientCredits (e : APIError) : Bool :=
  e.code == "INSUFFICIENT_CREDITS"

/-- The `APIError.isSolveFailed`. -/
def APIError.isSolveFailed (e : APIError) : Bool :=
  e.code == "SOLVE_FAILED"

/-- The `RequestError` of the captcha client: a transport-level failure with an
optional underlying cause. -/
structure RequestError where
  message : String
  cause : Option JsError
deriving DecidableEq, Repr

/-- A classified error of the captcha client: either an `APIError` or a
`RequestError` (both extend `GatsbieError`). -/
inductive GatsbieErr where
  | api (e : APIError)
  | req (e : RequestError)

/-- What the `try` block of `Client.request` can throw. -/
inductive JsThrow where
  | apiErr (e : APIError)
  | jsErr (e : JsError)
  | nonError

/-- The error envelope read off a non-2xx body:
`(data.error as Record<string, unknown>) || {}`.  When `data.error` is not
an object, every property read below yields `undefined`, exactly as on the
empty object, so the envelope is its field list when an object and empty
otherwise.  (`data = null` throws before this point and is handled in
`requestTry`.) -/
def errorEnvelope (data : JValue) : List (String × JValue) :=
  match jsProp data "error" with
  | some (.obj fs) => fs
  | _ => []

/-- The `APIError` built from a non-2xx response: each envelope sub-field
defaults when absent or falsy (`code` to `UNKNOWN`, `message` to
`Unknown error`), and the numeric HTTP status is attached. -/
def apiErrorOfBody (status : Nat) (data : JValue) : APIError :=
  let env := errorEnvelope data
  APIError.make
    (jsOrDefaultStr (lookupField env "code") "UNKNOWN")
    (jsOrDefaultStr (lookupField env "message") "Unknown error")
    (lookupField env "details")
    (lookupField env "timestamp")
    (some status)

/-- The `try` block of `Client.request` (`src/client.ts`): await the fetch,
parse the body as JSON (before inspecting the status), and on a non-2xx
status build and throw an `APIError` from the error envelope.  Reading
`data.error` on a `null` body throws a `TypeError`. -/
def requestTry (o : FetchOutcome) : Except JsThrow JValue :=
  match o with
  | .fetchError name message => .error (.jsErr ⟨name, message⟩)
  | .thrownNonError => .error .nonError
  | .completed status body =>
    match body with
    | .error parseMsg => .error (.jsErr ⟨"SyntaxError", parseMsg⟩)
    | .ok data =>
      if !(responseOk status) then
        match data with
        | .null => .error (.jsErr ⟨"TypeError", nullReadMsg "error"⟩)
        | _ => .error (.apiErr (apiErrorOfBody status data))
      else
        .ok data

/-- The `catch` block of `Client.request`: rethrow `APIError`s; map an
`AbortError` to `RequestError "Request timed out"`; wrap any other `Error`
as `RequestError "Request failed: <message>"` preserving the cause; wrap a
non-`Error` as a bare `RequestError "Request failed"`. -/
def requestCatch : JsThrow → GatsbieErr
  | .apiErr e => .api e
  | .jsErr e =>
      if e.name == "AbortError" then .req ⟨"Request timed out", some e⟩
      else .req ⟨"Request failed: " ++ e.message, some e⟩
  | .nonError => .req ⟨"Request failed", none⟩

/-- The `Client.request` of the captcha client: the try block composed with the
catch classification.  The result is either the parsed success body
(returned verbatim to the per-operation field mapper) or one classified
error. -/
def Client.request (o : FetchOutcome) : Except GatsbieErr JValue :=
  match requestTry o with
  | .ok data => .ok data
  | .error t => .error (requestCatch t)

end Gatsbie

/-- Events of one `Client.request` call that concern the per-call timeout
timer and the call's completion, in the order they happen. -/
inductive CallEvent where
  | timerSet
  | fetchIssued
  | timerFired
  | timerCleared
  | returned
  | raised
deriving DecidableEq, Repr

/-- Whether the per-call timer is still pending after a list of events. -/
def timerPending (evs : List CallEvent) : Bool :=
  evs.foldl
    (fun s ev =>
      match ev with
      | .timerSet => true
      | .timerFired => false
      | .timerCleared => false
      | _ => s)
    false

/-- The event with which a call completes: a value is returned or an error
is raised. -/
def completionEvent {ε α : Type} (r : Except ε α) : CallEvent :=
  match r with
  | .ok _ => .returned
  | .error _ => .raised

/-- The timer fires during the call exactly on the timeout path (the
`AbortError` rejection is produced by the fired timer's `controller.abort()`). -/
def timerFiredEvents (o : FetchOutcome) : List CallEvent :=
  match o with
  | .fetchError name _ => if name == "AbortError" then [.timerFired] else []
  | _ => []

namespace Gatsbie

/-- The timer-relevant event trace of one `Client.request` call:
`setTimeout` runs first, the fetch is issued, the timer fires only on the
timeout path, and the `finally` block runs `clearTimeout` before the call
completes — on the success, `APIError` and `RequestError` paths alike. -/
def Client.requestEvents (o : FetchOutcome) : List CallEvent :=
  [.timerSet, .fetchIssued]
    ++ timerFiredEvents o
    ++ [.timerCleared, completionEvent (Client.request o)]

/-- What a façade method call can raise: a classified error (from the
transport/classification layer) or a raw JavaScript error escaping a field
mapper that ran on an unexpectedly shaped success body. -/
inductive Thrown where
  | classified (e : GatsbieErr)
  | unclassified (e : JsError)

/-- The generic typed solve response (`SolveResponse<T>` in `src/types.ts`).
The scalar fields are copied verbatim from the wire body (`data.success`
etc.); `none` models the field being `undefined` when the wire body lacks
the key. -/
structure SolveResponse (α : Type) where
  success : Option JValue
  taskId : Option JValue
  service : Option JValue
  solution : α
  cost : Option JValue
  solveTime : Option JValue

/-- Copy the scalar `SolveResponse` fields off the wire body around an
already-mapped solution. -/
def solveResponseOf {α : Type} (data : JValue) (sol : α) : SolveResponse α :=
  { success := jsProp data "success", taskId := jsProp data "taskId",
    service := jsProp data "service", solution := sol,
    cost := jsProp data "cost", solveTime := jsProp data "solveTime" }

/-- The `ShapeRequest` (`src/types.ts`). -/
structure ShapeRequest where
  proxy : String
  targetUrl : String
  targetApi : String
  shapeJsUrl : String
  title : String
  method : String

/-- The wire body built by `Client.solveShape`. -/
def solveShapeBody (r : ShapeRequest) : List (String × JValue) :=
  [("task_type", .str "shape"), ("proxy", .str r.proxy),
   ("target_url", .str r.targetUrl), ("target_api", .str r.targetApi),
   ("shape_js_url", .str r.shapeJsUrl), ("title", .str r.title),
   ("method", .str r.method)]

/-- The `ShapeSolution` (`src/types.ts`): the dynamic headers with the
`User-Agent` key extracted into its own field.  `headers` is a required
field of the interface — it is always materialized, possibly empty. -/
structure ShapeSolution where
  headers : List (String × JValue)
  userAgent : JValue

/-- The `userAgent || ""`: the extracted value when truthy, else the empty
string (also when the key was absent). -/
def uaOrEmpty (v : Option JValue) : JValue :=
  match v with
  | some w => if jsTruthy w then w else .str ""
  | none => .str ""

/-- The destructuring `const { "User-Agent": userAgent, ...headers } =
data.solution` followed by `{ headers, userAgent: userAgent || "" }`.
Destructuring `undefined` or `null` throws a `TypeError`; on a primitive it
yields no bindings (string index properties are not exercised by any
endpoint and are elided). -/
def mapShapeSolution (sol : Option JValue) : Except JsError ShapeSolution :=
  match sol with
  | none => .error ⟨"TypeError", destructureUndefMsg "User-Agent"⟩
  | some .null => .error ⟨"TypeError", destructureNullMsg "User-Agent"⟩
  | some (.obj fs) =>
      .ok { headers := eraseField fs "User-Agent",
            userAgent := uaOrEmpty (lookupField fs "User-Agent") }
  | some _ => .ok { headers := [], userAgent := uaOrEmpty none }

/-- The response half of `Client.solveShape`: run the request, then reshape
the dynamic solution object.  The transport's behaviour for the issued
request (body `solveShapeBody`) is abstracted by `o`. -/
def Client.solveShape (o : FetchOutcome) :
    Except Thrown (SolveResponse ShapeSolution) :=
  match Client.request o with
  | .error e => .error (.classified e)
  | .ok data =>
    match mapShapeSolution (jsProp data "solution") with
    | .error te => .error (.unclassified te)
    | .ok sol => .ok (solveResponseOf data sol)

/-- The `ShapeV2Request` (declared in the SDK's types; the optional metadata
fields are exactly those the method body tests for truthiness). -/
structure ShapeV2Request where
  url : String
  proxy : String
  pkey : Option String
  scriptUrl : Option String
  request : Option String
  country : Option String
  timeout : Option Int

/-- The `metadata` object built by `Client.solveShapeV2`: the proxy always,
then each optional field only when truthy. -/
def solveShapeV2Metadata (r : ShapeV2Request) : List (String × JValue) :=
  [("proxy", .str r.proxy)]
    ++ optStrField "pkey" r.pkey
    ++ optStrField "script_url" r.scriptUrl
    ++ optStrField "request" r.request
    ++ optStrField "country" r.country
    ++ optIntField "timeout" r.timeout

/-- The wire body built by `Client.solveShapeV2`. -/
def solveShapeV2Body (r : ShapeV2Request) : List (String × JValue) :=
  [("url", .str r.url), ("metadata", .obj (solveShapeV2Metadata r))]

/-- The `ShapeV2Solution`: the known `headers` field plus the remaining dynamic
keys, which are present (`some`) only when non-empty. -/
structure ShapeV2Solution where
  headers : JValue
  extra : Option (List (String × JValue))

/-- The destructuring `const { headers = {}, ...extra } = data.solution`
followed by `extra: Object.keys(extra).length > 0 ? extra : undefined`.
The `= {}` default applies only when the `headers` value is `undefined`. -/
def mapShapeV2Solution (sol : Option JValue) : Except JsError ShapeV2Solution :=
  match sol with
  | none => .error ⟨"TypeError", destructureUndefMsg "headers"⟩
  | some .null => .error ⟨"TypeError", destructureNullMsg "headers"⟩
  | some (.obj fs) =>
      let rest := eraseField fs "headers"
      .ok { headers := (lookupField fs "headers").getD (.obj []),
            extra := if rest.length > 0 then some rest else none }
  | some _ => .ok { headers := .obj [], extra := none }

/-- The response half of `Client.solveShapeV2`. -/
def Client.solveShapeV2 (o : FetchOutcome) :
    Except Thrown (SolveResponse ShapeV2Solution) :=
  match Client.request o with
  | .error e => .error (.classified e)
  | .ok data =>
    match mapShapeV2Solution (jsProp data "solution") with
    | .error te => .error (.unclassified te)
    | .ok sol => .ok (solveResponseOf data sol)

/-- The `RecaptchaRequest`: the fields read by `Client.solveRecaptcha`.  `size`
and `title` are copied into the body verbatim (an `undefined` value is then
dropped by `JSON.stringify`); `action` and `ubd` are added only when
truthy. -/
structure RecaptchaRequest where
  proxy : String
  targetUrl : String
  siteKey : String
  size : Option JValue
  title : Option JValue
  action : Option String
  ubd : Option String

/-- The `RecaptchaEnterpriseRequest`: as `RecaptchaRequest` plus the optional
`sa` field. -/
structure RecaptchaEnterpriseRequest where
  proxy : String
  targetUrl : String
  siteKey : String
  size : Option JValue
  title : Option JValue
  action : Option String
  ubd : Option String
  sa : Option String

/-- The fixed part of the body shared by `solveRecaptcha` and
`solveRecaptchaEnterprise`: the required fields, then `size` and `title`
copied verbatim (a `none` value is a key assigned `undefined`). -/
def recaptchaBaseBody (taskType proxy targetUrl siteKey : String)
    (size title : Option JValue) : List (String × Option JValue) :=
  [("task_type", some (.str taskType)), ("proxy", some (.str proxy)),
   ("target_url", some (.str targetUrl)), ("site_key", some (.str siteKey)),
   ("size", size), ("title", title)]

/-- The object built by `Client.solveRecaptcha` before serialization:
the fixed fields, then `action` and `ubd` only when truthy. -/
def solveRecaptchaBody (r : RecaptchaRequest) : List (String × Option JValue) :=
  recaptchaBaseBody "recaptcha" r.proxy r.targetUrl r.siteKey r.size r.title
    ++ (optStrEntry "action" r.action)
    ++ (optStrEntry "ubd" r.ubd)

/-- The object built by `Client.solveRecaptchaEnterprise`: the fixed
fields, then `action`, `ubd` and `sa` only when truthy. -/
def solveRecaptchaEnterpriseBody (r : RecaptchaEnterpriseRequest) :
    List (String × Option JValue) :=
  recaptchaBaseBody "recaptcha_enterprise" r.proxy r.targetUrl r.siteKey r.size r.title
    ++ (optStrEntry "action" r.action)
    ++ (optStrEntry "ubd" r.ubd)
    ++ (optStrEntry "sa" r.sa)

/-- The `RecaptchaSolution`: the solve token, copied off `data.solution.token`. -/
structure RecaptchaSolution where
  token : Option JValue

/-- The read `data.solution.token` (throws a `TypeError` when
`data.solution` is `undefined` or `null`). -/
def mapRecaptchaSolution (sol : Option JValue) : Except JsError RecaptchaSolution :=
  match sol with
  | none => .error ⟨"TypeError", undefReadMsg "token"⟩
  | some .null => .error ⟨"TypeError", nullReadMsg "token"⟩
  | some v => .ok { token := jsProp v "token" }

/-- The response half of `Client.solveRecaptcha` (and of
`Client.solveRecaptchaEnterprise`, whose response handling is identical). -/
def Client.solveRecaptcha (o : FetchOutcome) :
    Except Thrown (SolveResponse RecaptchaSolution) :=
  match Client.request o with
  | .error e => .error (.classified e)
  | .ok data =>
    match mapRecaptchaSolution (jsProp data "solution") with
    | .error te => .error (.unclassified te)
    | .ok sol => .ok (solveResponseOf data sol)

end Gatsbie

namespace Target

/-- The `APIError` of the Target client (`src/target/errors.ts`): a flat error
envelope with a required numeric `httpStatus`. -/
structure APIError where
  message : String
  status : Option JValue
  details : Option JValue
  suggestion : Option JValue
  code : Option JValue
  httpStatus : Nat

/-- The `APIError.isInvalidRequest`: the HTTP status is 400. -/
def APIError.isInvalidRequest (e : APIError) : Bool :=
  e.httpStatus == 400

/-- The `APIError.isUnauthorized`: the HTTP status is 401. -/
def APIError.isUnauthorized (e : APIError) : Bool :=
  e.httpStatus == 401

/-- The `RequestError` of the Target client. -/
structure RequestError where
  message : String
  cause : Option JsError
deriving DecidableEq, Repr

/-- A classified error of the Target client (both subtypes extend
`TargetError`). -/
inductive TargetErr where
  | api (e : APIError)
  | req (e : RequestError)

/-- What a Target façade method call can raise: a classified error, or a
raw JavaScript error escaping a field mapper. -/
inductive Thrown where
  | classified (e : TargetErr)
  | unclassified (e : JsError)

/-- What the `try` block of `Target.Client.request` can throw. -/
inductive JsThrow where
  | apiErr (e : APIError)
  | jsErr (e : JsError)
  | nonError

/-- The `APIError` built from a non-2xx Target response: the flat envelope
fields are copied off the body (`(data.error as string) || "Unknown
error"`, the rest verbatim) and the numeric HTTP status attached. -/
def apiErrorOfBody (status : Nat) (data : JValue) : APIError :=
  { message := jsOrDefaultStr (jsProp data "error") "Unknown error",
    status := jsProp data "status",
    details := jsProp data "details",
    suggestion := jsProp data "suggestion",
    code := jsProp data "code",
    httpStatus := status }

/-- The `try` block of `Target.Client.request` (`src/target/client.ts`):
identical control flow to the captcha client, with the flat error
envelope. -/
def requestTry (o : FetchOutcome) : Except JsThrow JValue :=
  match o with
  | .fetchError name message => .error (.jsErr ⟨name, message⟩)
  | .thrownNonError => .error .nonError
  | .completed status body =>
    match body with
    | .error parseMsg => .error (.jsErr ⟨"SyntaxError", parseMsg⟩)
    | .ok data =>
      if !(responseOk status) then
        match data with
        | .null => .error (.jsErr ⟨"TypeError", nullReadMsg "error"⟩)
        | _ => .error (.apiErr (apiErrorOfBody status data))
      else
        .ok data

/-- The `catch` block of `Target.Client.request` (same classification as
the captcha client). -/
def requestCatch : JsThrow → TargetErr
  | .apiErr e => .api e
  | .jsErr e =>
      if e.name == "AbortError" then .req ⟨"Request timed out", some e⟩
      else .req ⟨"Request failed: " ++ e.message, some e⟩
  | .nonError => .req ⟨"Request failed", none⟩

/-- The `Target.Client.request`: try block composed with catch classification. -/
def Client.request (o : FetchOutcome) : Except TargetErr JValue :=
  match requestTry o with
  | .ok data => .ok data
  | .error t => .error (requestCatch t)

/-- The timer-relevant event trace of one `Target.Client.request` call
(the `finally` clause clears the timer on every exit path). -/
def Client.requestEvents (o : FetchOutcome) : List CallEvent :=
  [.timerSet, .fetchIssued]
    ++ timerFiredEvents o
    ++ [.timerCleared, completionEvent (Client.request o)]

/-- The `AddToCartRequest` (`src/target/types.ts`). -/
structure AddToCartRequest where
  tcin : String
  quantity : Int
  accessToken : String
  proxy : String
  fulfillmentType : Option String
  storeId : Option String

/-- A local validation error thrown by a façade method:
`new APIError({ message, httpStatus: 400 })`. -/
def localInvalid (message : String) : APIError :=
  { message := message, status := none, details := none,
    suggestion := none, code := none, httpStatus := 400 }

/-- The `addToCart` validation chain, in source order: required fields by
truthiness, the quantity bound, then the cross-field constraint that a
`CURBSIDE` or `STORE_PICKUP` fulfillment requires a truthy `storeId`.
Returns the first error thrown, or `none` when the input is valid. -/
def addToCartValidationError (r : AddToCartRequest) : Option APIError :=
  if r.tcin == "" then
    some (localInvalid "tcin is required")
  else if r.quantity < 1 then
    some (localInvalid "quantity must be at least 1")
  else if r.accessToken == "" then
    some (localInvalid "accessToken is required")
  else if r.proxy == "" then
    some (localInvalid "proxy is required")
  else if (r.fulfillmentType == some "CURBSIDE"
        || r.fulfillmentType == some "STORE_PICKUP")
      && !(truthyOptStr r.storeId) then
    some (localInvalid
      "storeId is required when fulfillmentType is CURBSIDE or STORE_PICKUP")
  else
    none

/-- The wire body built by `addToCart` after validation: the required
fields, then `fulfillment_type` and `store_id` only when truthy. -/
def addToCartBody (r : AddToCartRequest) : List (String × JValue) :=
  [("tcin", .str r.tcin), ("quantity", .num r.quantity),
   ("access_token", .str r.accessToken), ("proxy", .str r.proxy)]
    ++ optStrField "fulfillment_type" r.fulfillmentType
    ++ optStrField "store_id" r.storeId

/-- The read `data.k`, required to be a readable base for further property
access: `undefined` and `null` throw a `TypeError` at the first nested
read; any other value is returned (nested reads on primitives yield
`undefined`). -/
def jsPropBase (data : JValue) (k firstRead : String) : Except JsError JValue :=
  match jsProp data k with
  | none => .error ⟨"TypeError", undefReadMsg firstRead⟩
  | some .null => .error ⟨"TypeError", nullReadMsg firstRead⟩
  | some v => .ok v

/-- The `AddedItemSummary` — fields copied verbatim off `data.item_added`. -/
structure AddedItemSummary where
  tcin : Option JValue
  title : Option JValue
  imageUrl : Option JValue
  quantity : Option JValue
  unitPrice : Option JValue
  subtotal : Option JValue

/-- The `FulfillmentSummary` — fields copied off `data.fulfillment`. -/
structure FulfillmentSummary where
  type : Option JValue
  storeName : Option JValue
  estimatedDate : Option JValue
  pickupHours : Option JValue

/-- The `PricingSummary` — fields copied off `data.pricing`. -/
structure PricingSummary where
  itemTotal : Option JValue
  shipping : Option JValue
  tax : Option JValue
  total : Option JValue

/-- The `ReturnPolicySummary` — built only when `data.return_policy` is truthy. -/
structure ReturnPolicySummary where
  days : Option JValue
  daysWithCircle : Option JValue

/-- The `AddToCartResponse` (`src/target/types.ts`), fields renamed from the
wire naming convention. -/
structure AddToCartResponse where
  success : Option JValue
  message : Option JValue
  cartId : Option JValue
  totalItemsInCart : Option JValue
  itemAdded : AddedItemSummary
  fulfillment : FulfillmentSummary
  pricing : PricingSummary
  returnPolicy : Option ReturnPolicySummary

/-- The response mapping of `addToCart`: rename the flat fields, split the
nested `item_added` / `fulfillment` / `pricing` objects (whose absence
makes the nested reads throw a `TypeError`), and build `returnPolicy` only
when `data.return_policy` is truthy. -/
def mapAddToCartResponse (data : JValue) : Except JsError AddToCartResponse := do
  let itemAdded ← jsPropBase data "item_added" "tcin"
  let fulfillment ← jsPropBase data "fulfillment" "type"
  let pricing ← jsPropBase data "pricing" "item_total"
  .ok
    { success := jsProp data "success",
      message := jsProp data "message",
      cartId := jsProp data "cart_id",
      totalItemsInCart := jsProp data "total_items_in_cart",
      itemAdded :=
        { tcin := jsProp itemAdded "tcin", title := jsProp itemAdded "title",
          imageUrl := jsProp itemAdded "image_url",
          quantity := jsProp itemAdded "quantity",
          unitPrice := jsProp itemAdded "unit_price",
          subtotal := jsProp itemAdded "subtotal" },
      fulfillment :=
        { type := jsProp fulfillment "type",
          storeName := jsProp fulfillment "store_name",
          estimatedDate := jsProp fulfillment "estimated_date",
          pickupHours := jsProp fulfillment "pickup_hours" },
      pricing :=
        { itemTotal := jsProp pricing "item_total",
          shipping := jsProp pricing "shipping",
          tax := jsProp pricing "tax",
          total := jsProp pricing "total" },
      returnPolicy :=
        match jsProp data "return_policy" with
        | some v =>
            if jsTruthy v then
              some { days := jsProp v "days",
                     daysWithCircle := jsProp v "days_with_circle" }
            else none
        | none => none }

/-- The `Client.addToCart`: run the local validation chain; on failure raise
the `InvalidRequestError` without touching the transport; on valid input
build the body, invoke the transport once (its behaviour abstracted by
`o`), and map the response.  The second component counts transport
invocations. -/
def Client.addToCart (r : AddToCartRequest) (o : FetchOutcome) :
    Except Thrown AddToCartResponse × Nat :=
  match addToCartValidationError r with
  | some e => (.error (.classified (.api e)), 0)
  | none =>
    match Client.request o with
    | .error e => (.error (.classified e), 1)
    | .ok data =>
      match mapAddToCartResponse data with
      | .error te => (.error (.unclassified te), 1)
      | .ok resp => (.ok resp, 1)

end Target

/-- Observation: the message of the error raised by a captcha-client
request, if any. -/
def raisedMessage : Except Gatsbie.GatsbieErr JValue → Option String
  | .error (.req e) => some e.message
  | .error (.api e) => some e.message
  | .ok _ => none

/-- Observation: the `httpStatus` carried by a raised `APIError`, `none`
when the outcome is a success or a `RequestError` (which has no status). -/
def raisedApiStatus : Except Gatsbie.GatsbieErr JValue → Option (Option Nat)
  | .error (.api e) => some e.httpStatus
  | _ => none

/-! ## Association-list lemmas -/

theorem lookupField_append (l₁ l₂ : List (String × JValue)) (k : String) :
    lookupField (l₁ ++ l₂) k =
      (match lookupField l₁ k with
       | some v => some v
       | none => lookupField l₂ k) := by
  induction l₁ with
  | nil => rfl
  | cons kv rest ih =>
    by_cases h : kv.1 == k <;> simp [lookupField, h, ih]

theorem lookupField_eraseField (fs : List (String × JValue)) (key : String) :
    lookupField (eraseField fs key) key = none := by
  induction fs with
  | nil => rfl
  | cons kv rest ih =>
    by_cases h : kv.1 == key <;>
      simp [eraseField, lookupField, List.filter_cons, h] at ih ⊢ <;>
      simpa [eraseField] using ih

theorem eraseField_of_lookup_none (fs : List (String × JValue)) (key : String)
    (h : lookupField fs key = none) : eraseField fs key = fs := by
  induction fs with
  | nil => rfl
  | cons kv rest ih =>
    by_cases hk : kv.1 == key
    · simp [lookupField, hk] at h
    · simp [lookupField, hk] at h
      simp [eraseField, List.filter_cons, hk] at ih ⊢
      simpa [eraseField] using ih h

/-! ## C3 — non-2xx classification and envelope defaulting (captcha client) -/

/-- C3 (amended): for every completed non-2xx response whose parsed body is
not JSON `null`, exactly one `APIError` is raised, carrying the numeric
HTTP status; an absent envelope defaults `code` to `UNKNOWN` and the
message to `Unknown error`; an envelope missing `code` defaults it to
`UNKNOWN`; and the error classifies as an authentication error exactly
when its code is `AUTH_FAILED`.  (A body that is JSON `null` instead makes
the envelope read throw — see the counterexample.) -/
theorem c3_nonSuccess_classified (status : Nat) (data : JValue)
    (hst : responseOk status = false) (hnn : data ≠ .null) :
    Gatsbie.Client.request (.completed status (.ok data)) =
        .error (.api (Gatsbie.apiErrorOfBody status data)) ∧
      (Gatsbie.apiErrorOfBody status data).httpStatus = some status ∧
      (jsProp data "error" = none →
        Gatsbie.apiErrorOfBody status data =
          Gatsbie.APIError.make "UNKNOWN" "Unknown error" none none (some status)) ∧
      (∀ fs, jsProp data "error" = some (.obj fs) → lookupField fs "code" = none →
        (Gatsbie.apiErrorOfBody status data).code = "UNKNOWN") ∧
      ((Gatsbie.apiErrorOfBody status data).isAuthError =
        ((Gatsbie.apiErrorOfBody status data).code == "AUTH_FAILED")) := by
  refine ⟨?_, rfl, ?_, ?_, rfl⟩
  · cases data <;>
      simp_all [Gatsbie.Client.request, Gatsbie.requestTry, Gatsbie.requestCatch, hst]
  · intro h
    simp [Gatsbie.apiErrorOfBody, Gatsbie.errorEnvelope, h, lookupField, jsOrDefaultStr]
  · intro fs h hc
    simp [Gatsbie.apiErrorOfBody, Gatsbie.errorEnvelope, h, hc, jsOrDefaultStr,
      Gatsbie.APIError.make]

/-- C3 witness: HTTP 401 with body
`{error: {code: "AUTH_FAILED", message: "bad key"}}` raises an `APIError`
with code `AUTH_FAILED`, carrying status 401, classifying as an
authentication error. -/
theorem c3_witness :
    Gatsbie.Client.request (.completed 401 (.ok (.obj [("error",
        .obj [("code", .str "AUTH_FAILED"), ("message", .str "bad key")])]))) =
      .error (.api (Gatsbie.apiErrorOfBody 401 (.obj [("error",
        .obj [("code", .str "AUTH_FAILED"), ("message", .str "bad key")])]))) ∧
    (Gatsbie.apiErrorOfBody 401 (.obj [("error",
        .obj [("code", .str "AUTH_FAILED"), ("message", .str "bad key")])])).code =
      "AUTH_FAILED" ∧
    (Gatsbie.apiErrorOfBody 401 (.obj [("error",
        .obj [("code", .str "AUTH_FAILED"), ("message", .str "bad key")])])).isAuthError =
      true ∧
    (Gatsbie.apiErrorOfBody 401 (.obj [("error",
        .obj [("code", .str "AUTH_FAILED"), ("message", .str "bad key")])])).httpStatus =
      some 401 :=
  ⟨(c3_nonSuccess_classified 401 (.obj [("error",
      .obj [("code", .str "AUTH_FAILED"), ("message", .str "bad key")])])
      (by decide) (by intro h; exact JValue.noConfusion h)).1, rfl, rfl, rfl⟩

/-- C3 counterexample: a non-2xx response whose body parses to JSON `null`
does not raise an `APIError` carrying the status — reading the envelope off
`null` throws a `TypeError`, which surfaces as a `RequestError` with no
status attached. -/
theorem c3_counterexample :
    Gatsbie.Client.request (.completed 500 (.ok .null)) =
      .error (.req { message := "Request failed: " ++ nullReadMsg "error",
                     cause := some { name := "TypeError",
                                     message := nullReadMsg "error" } }) ∧
    raisedApiStatus (Gatsbie.Client.request (.completed 500 (.ok .null))) = none :=
  ⟨rfl, rfl⟩

/-! ## C4 — malformed response body (captcha client) -/

/-- C4 (amended): when the body of a completed response fails to parse as
JSON, the call raises a `RequestError` (transport kind) whose message is
`Request failed: ` followed by the parser message, preserving the parser
error as the cause — the raised error is a `RequestError`, not the parser
exception.  Parsing happens before the status is inspected: the result is
this `RequestError` for every status, success-range or not (never an
`APIError`). -/
theorem c4_parse_failure_wrapped (status : Nat) (parseMsg : String) :
    Gatsbie.Client.request (.completed status (.error parseMsg)) =
      .error (.req { message := "Request failed: " ++ parseMsg,
                     cause := some { name := "SyntaxError", message := parseMsg } }) := rfl

/-- C4 counterexample: the error raised on a parse failure carries the
wrapped parser message, not the message `malformed response body` the
claim states. -/
theorem c4_counterexample :
    raisedMessage (Gatsbie.Client.request
        (.completed 200 (.error "Unexpected token u in JSON at position 0"))) =
      some "Request failed: Unexpected token u in JSON at position 0" ∧
    raisedMessage (Gatsbie.Client.request
        (.completed 200 (.error "Unexpected token u in JSON at position 0"))) ≠
      some "malformed response body" :=
  ⟨rfl, by decide⟩

/-! ## C5 — timeout classification (captcha client) -/

/-- C5: when the per-call timer elapses first, the in-flight request is
aborted and the call raises `RequestError "Request timed out"` with the
abort error as cause and no response body; any other network failure
raises the same error kind (`RequestError`), differing only in message
text. -/
theorem c5_timeout_transport_error (m name : String) :
    (Gatsbie.Client.request (.fetchError "AbortError" m) =
      .error (.req { message := "Request timed out",
                     cause := some { name := "AbortError", message := m } })) ∧
    (name ≠ "AbortError" →
      Gatsbie.Client.request (.fetchError name m) =
        .error (.req { message := "Request failed: " ++ m,
                       cause := some { name := name, message := m } })) := by
  refine ⟨rfl, fun h => ?_⟩
  simp only [Gatsbie.Client.request, Gatsbie.requestTry, Gatsbie.requestCatch]
  rw [if_neg (by simpa using h)]

/-- C5 witness: a fired timeout raises `Request timed out`; a plain network
failure (`TypeError: fetch failed`) raises the same error kind with its
own message. -/
theorem c5_witness :
    Gatsbie.Client.request (.fetchError "AbortError" "This operation was aborted") =
      .error (.req { message := "Request timed out",
                     cause := some { name := "AbortError",
                                     message := "This operation was aborted" } }) ∧
    Gatsbie.Client.request (.fetchError "TypeError" "fetch failed") =
      .error (.req { message := "Request failed: fetch failed",
                     cause := some { name := "TypeError", message := "fetch failed" } }) :=
  ⟨(c5_timeout_transport_error "This operation was aborted" "TypeError").1,
   (c5_timeout_transport_error "fetch failed" "TypeError").2 (by decide)⟩

/-! ## C1 — exactly one typed result or one classified error -/

theorem gatsbie_request_ok_inv {o : FetchOutcome} {v : JValue}
    (h : Gatsbie.Client.request o = .ok v) :
    ∃ status, o = .completed status (.ok v) ∧ responseOk status = true := by
  cases o with
  | completed status body =>
    cases body with
    | error m => simp [Gatsbie.Client.request, Gatsbie.requestTry] at h
    | ok data =>
      by_cases hst : responseOk status
      · refine ⟨status, ?_, hst⟩
        simp [Gatsbie.Client.request, Gatsbie.requestTry, hst] at h
        subst h; rfl
      · simp only [Bool.not_eq_true] at hst
        cases data <;>
          simp [Gatsbie.Client.request, Gatsbie.requestTry, hst] at h
  | fetchError name m => simp [Gatsbie.Client.request, Gatsbie.requestTry] at h
  | thrownNonError => simp [Gatsbie.Client.request, Gatsbie.requestTry] at h

/-- C1 (amended): each transport-layer call on either client yields exactly
one outcome — a parsed body or a classified error, never both, never
neither.  A façade call yields exactly one typed result or one classified
error provided that, when the HTTP status is in the success range, the
body's `solution` portion has the operation's expected shape (here for
`solveShape`: an object); without that proviso the field mapper's raw
`TypeError` escapes unclassified (see the counterexample). -/
theorem c1_exactly_one_outcome (o : FetchOutcome)
    (hshape : ∀ status data, o = .completed status (.ok data) →
      responseOk status = true → ∃ fs, jsProp data "solution" = some (.obj fs)) :
    ((∃ v, Gatsbie.Client.request o = .ok v) ∨
        (∃ e, Gatsbie.Client.request o = .error e)) ∧
      ¬ ((∃ v, Gatsbie.Client.request o = .ok v) ∧
          (∃ e, Gatsbie.Client.request o = .error e)) ∧
      ((∃ v, Target.Client.request o = .ok v) ∨
        (∃ e, Target.Client.request o = .error e)) ∧
      ¬ ((∃ v, Target.Client.request o = .ok v) ∧
          (∃ e, Target.Client.request o = .error e)) ∧
      ((∃ r, Gatsbie.Client.solveShape o = .ok r) ∨
        (∃ c, Gatsbie.Client.solveShape o = .error (.classified c))) ∧
      ¬ ((∃ r, Gatsbie.Client.solveShape o = .ok r) ∧
          (∃ c, Gatsbie.Client.solveShape o = .error (.classified c))) := by
  refine ⟨?_, ?_, ?_, ?_, ?_, ?_⟩
  · cases h : Gatsbie.Client.request o with
    | ok v => exact .inl ⟨v, rfl⟩
    | error e => exact .inr ⟨e, rfl⟩
  · rintro ⟨⟨v, hv⟩, ⟨e, he⟩⟩
    rw [hv] at he; exact Except.noConfusion he
  · cases h : Target.Client.request o with
    | ok v => exact .inl ⟨v, rfl⟩
    | error e => exact .inr ⟨e, rfl⟩
  · rintro ⟨⟨v, hv⟩, ⟨e, he⟩⟩
    rw [hv] at he; exact Except.noConfusion he
  · cases h : Gatsbie.Client.request o with
    | error e =>
      right
      exact ⟨e, by simp [Gatsbie.Client.solveShape, h]⟩
    | ok v =>
      left
      obtain ⟨status, rfl, hst⟩ := gatsbie_request_ok_inv h
      obtain ⟨fs, hfs⟩ := hshape status v rfl hst
      refine ⟨Gatsbie.solveResponseOf v
        { headers := eraseField fs "User-Agent",
          userAgent := Gatsbie.uaOrEmpty (lookupField fs "User-Agent") }, ?_⟩
      simp [Gatsbie.Client.solveShape, h, Gatsbie.mapShapeSolution, hfs]
  · rintro ⟨⟨r, hr⟩, ⟨c, hc⟩⟩
    rw [hr] at hc; exact Except.noConfusion hc

/-- C1 counterexample: a 2xx response with the well-formed JSON body `{}`
(no `solution` key) makes `solveShape` raise a raw `TypeError` from the
destructuring of `data.solution` — an error that is neither an `APIError`
nor a `RequestError`, so the call yields neither a typed result nor a
classified error. -/
theorem c1_counterexample :
    Gatsbie.Client.solveShape (.completed 200 (.ok (.obj []))) =
      .error (.unclassified { name := "TypeError",
                              message := destructureUndefMsg "User-Agent" }) := rfl

/-- C1 witness: on a well-shaped success body the façade call yields a
typed result or a classified error. -/
theorem c1_witness :
    (∃ r, Gatsbie.Client.solveShape (.completed 200 (.ok (.obj [("solution",
        .obj [("User-Agent", .str "UA")])]))) = .ok r) ∨
    (∃ c, Gatsbie.Client.solveShape (.completed 200 (.ok (.obj [("solution",
        .obj [("User-Agent", .str "UA")])]))) = .error (.classified c)) :=
  (c1_exactly_one_outcome (.completed 200 (.ok (.obj [("solution",
      .obj [("User-Agent", .str "UA")])])))
    (by
      intro status data heq hst
      injection heq with h1 h2
      injection h2 with h3
      subst h3
      exact ⟨[("User-Agent", .str "UA")], rfl⟩)).2.2.2.2.1

/-! ## C2 — empty dynamic remainder: absent vs empty container -/

/-- C2 (amended): of the two open-dynamic-key operations, `solveShapeV2`
represents an empty auxiliary map as absent — when the wire solution
contains nothing beyond the statically known `headers` key, the typed
`extra` field is `undefined` (`none`), not an empty container.
`solveShape`, by contrast, always materializes its `headers` map: when the
wire solution contains only the statically known `User-Agent` key, the
typed `headers` is the present-but-empty map (see the counterexample). -/
theorem c2_empty_auxiliary_absent (status : Nat) (data : JValue)
    (fs : List (String × JValue))
    (hst : responseOk status = true)
    (hsol : jsProp data "solution" = some (.obj fs)) :
    (eraseField fs "headers" = [] →
      Gatsbie.Client.solveShapeV2 (.completed status (.ok data)) =
        .ok (Gatsbie.solveResponseOf data
          { headers := (lookupField fs "headers").getD (.obj []),
            extra := none })) ∧
    (eraseField fs "User-Agent" = [] →
      Gatsbie.Client.solveShape (.completed status (.ok data)) =
        .ok (Gatsbie.solveResponseOf data
          { headers := [],
            userAgent := Gatsbie.uaOrEmpty (lookupField fs "User-Agent") })) := by
  constructor
  · intro hrest
    simp [Gatsbie.Client.solveShapeV2, Gatsbie.Client.request, Gatsbie.requestTry,
      hst, Gatsbie.mapShapeV2Solution, hsol, hrest]
  · intro hrest
    simp [Gatsbie.Client.solveShape, Gatsbie.Client.request, Gatsbie.requestTry,
      hst, Gatsbie.mapShapeSolution, hsol, hrest]

/-- C2 witness: a `solveShapeV2` wire solution `{headers: {h1: "v"}}` (no
dynamic remainder) yields `extra = none` — the auxiliary map is absent. -/
theorem c2_witness :
    Gatsbie.Client.solveShapeV2 (.completed 200 (.ok (.obj [("solution",
        .obj [("headers", .obj [("h1", .str "v")])])]))) =
      .ok (Gatsbie.solveResponseOf (.obj [("solution",
        .obj [("headers", .obj [("h1", .str "v")])])])
        { headers := .obj [("h1", .str "v")], extra := none }) :=
  (c2_empty_auxiliary_absent 200 (.obj [("solution",
      .obj [("headers", .obj [("h1", .str "v")])])])
    [("headers", .obj [("h1", .str "v")])] (by decide) rfl).1 rfl

/-- C2 counterexample: a `solveShape` wire solution `{"User-Agent": "UA"}`
(only the statically known key, empty remainder) yields a typed solution
whose `headers` field is the present-but-empty map `{}` — the TypeScript
`ShapeSolution.headers` field is required, so the auxiliary map is an
empty container here, not absent as the claim states. -/
theorem c2_counterexample :
    Gatsbie.Client.solveShape (.completed 200 (.ok (.obj [("solution",
        .obj [("User-Agent", .str "UA")])]))) =
      .ok { success := none, taskId := none, service := none,
            solution := { headers := [], userAgent := .str "UA" },
            cost := none, solveTime := none } := rfl

/-! ## C7 — User-Agent extraction in solveShape -/

/-- C7: for a successful `solveShape` response whose wire solution is a
dynamic key map carrying a (truthy) `User-Agent` entry, the typed output
extracts that value into `userAgent` and collects every remaining key into
`headers`, from which `User-Agent` is excluded. -/
theorem c7_user_agent_extraction (status : Nat) (data : JValue)
    (fs : List (String × JValue)) (ua : String)
    (hst : responseOk status = true)
    (hsol : jsProp data "solution" = some (.obj fs))
    (hua : lookupField fs "User-Agent" = some (.str ua))
    (hne : ua ≠ "") :
    Gatsbie.Client.solveShape (.completed status (.ok data)) =
      .ok (Gatsbie.solveResponseOf data
        { headers := eraseField fs "User-Agent", userAgent := .str ua }) ∧
    lookupField (eraseField fs "User-Agent") "User-Agent" = none := by
  refine ⟨?_, lookupField_eraseField fs "User-Agent"⟩
  have hbeq : (ua == "") = false := by simpa using hne
  simp [Gatsbie.Client.solveShape, Gatsbie.Client.request, Gatsbie.requestTry,
    hst, Gatsbie.mapShapeSolution, hsol, Gatsbie.uaOrEmpty, hua, jsTruthy, hbeq]

/-- C7 witness: the wire solution
`{"User-Agent": "UA", "X-Custom": "v1"}` maps to the typed solution
`{userAgent: "UA", headers: {"X-Custom": "v1"}}`, with `User-Agent`
excluded from `headers`. -/
theorem c7_witness :
    Gatsbie.Client.solveShape (.completed 200 (.ok (.obj [("solution",
        .obj [("User-Agent", .str "UA"), ("X-Custom", .str "v1")])]))) =
      .ok (Gatsbie.solveResponseOf (.obj [("solution",
        .obj [("User-Agent", .str "UA"), ("X-Custom", .str "v1")])])
        { headers := [("X-Custom", .str "v1")], userAgent := .str "UA" }) ∧
    lookupField (eraseField [("User-Agent", .str "UA"), ("X-Custom", .str "v1")]
      "User-Agent") "User-Agent" = none := by
  have h := c7_user_agent_extraction 200 (.obj [("solution",
      .obj [("User-Agent", .str "UA"), ("X-Custom", .str "v1")])])
    [("User-Agent", .str "UA"), ("X-Custom", .str "v1")] "UA"
    (by decide) rfl rfl (by decide)
  exact ⟨by rw [h.1]; rfl, h.2⟩

/-! ## C9 — solveShape without a User-Agent key -/

/-- C9: for a successful `solveShape` response whose wire solution (a
dynamic key map) lacks the `User-Agent` key, the typed `userAgent` is the
empty string (never absent) and `headers` is present, containing every
wire solution key (here: all of them, none being `User-Agent`). -/
theorem c9_missing_user_agent_defaults (status : Nat) (data : JValue)
    (fs : List (String × JValue))
    (hst : responseOk status = true)
    (hsol : jsProp data "solution" = some (.obj fs))
    (hua : lookupField fs "User-Agent" = none) :
    Gatsbie.Client.solveShape (.completed status (.ok data)) =
      .ok (Gatsbie.solveResponseOf data
        { headers := fs, userAgent := .str "" }) := by
  have herase := eraseField_of_lookup_none fs "User-Agent" hua
  simp [Gatsbie.Client.solveShape, Gatsbie.Client.request, Gatsbie.requestTry,
    hst, Gatsbie.mapShapeSolution, hsol, Gatsbie.uaOrEmpty, hua, herase]

/-- C9 witness: the wire solution `{"X-Custom": "v1"}` (no `User-Agent`)
maps to `userAgent = ""` with `headers` present and containing
`X-Custom`. -/
theorem c9_witness :
    Gatsbie.Client.solveShape (.completed 200 (.ok (.obj [("solution",
        .obj [("X-Custom", .str "v1")])]))) =
      .ok (Gatsbie.solveResponseOf (.obj [("solution",
        .obj [("X-Custom", .str "v1")])])
        { headers := [("X-Custom", .str "v1")], userAgent := .str "" }) :=
  c9_missing_user_agent_defaults 200 (.obj [("solution",
      .obj [("X-Custom", .str "v1")])])
    [("X-Custom", .str "v1")] (by decide) rfl rfl

/-! ## C8 — the per-call timer is cleared on every exit path -/

theorem completionEvent_eq_or {ε α : Type} (r : Except ε α) :
    completionEvent r = .returned ∨ completionEvent r = .raised := by
  cases r with
  | error e => exact .inr rfl
  | ok v => exact .inl rfl

theorem timerPending_append_cleared (pre : List CallEvent) (ce : CallEvent)
    (h : ce = .returned ∨ ce = .raised) :
    timerPending (pre ++ [.timerCleared, ce]) = false := by
  rcases h with h | h <;> subst h <;>
    simp [timerPending, List.foldl_append]

theorem timerCleared_not_mem_pre (o : FetchOutcome) :
    CallEvent.timerCleared ∉
      ([CallEvent.timerSet, CallEvent.fetchIssued] ++ timerFiredEvents o) := by
  cases o with
  | completed status body => simp [timerFiredEvents]
  | thrownNonError => simp [timerFiredEvents]
  | fetchError name m =>
    by_cases h : name == "AbortError" <;> simp [timerFiredEvents, h]

/-- C8: for every call through either client's transport, the event trace
decomposes as a prefix containing no `clearTimeout`, then the single
`clearTimeout` of the `finally` block, then the call's completion (return
or raise) — so the timer is cleared exactly once, before the call
completes, on the success, classified-error and transport-error paths
alike, and no pending timer survives the call. -/
theorem c8_timer_always_cleared (o : FetchOutcome) :
    (timerPending (Gatsbie.Client.requestEvents o) = false ∧
      Gatsbie.Client.requestEvents o =
        ([CallEvent.timerSet, CallEvent.fetchIssued] ++ timerFiredEvents o)
          ++ [CallEvent.timerCleared, completionEvent (Gatsbie.Client.request o)] ∧
      CallEvent.timerCleared ∉
        ([CallEvent.timerSet, CallEvent.fetchIssued] ++ timerFiredEvents o)) ∧
    (timerPending (Target.Client.requestEvents o) = false ∧
      Target.Client.requestEvents o =
        ([CallEvent.timerSet, CallEvent.fetchIssued] ++ timerFiredEvents o)
          ++ [CallEvent.timerCleared, completionEvent (Target.Client.request o)] ∧
      CallEvent.timerCleared ∉
        ([CallEvent.timerSet, CallEvent.fetchIssued] ++ timerFiredEvents o)) := by
  have hg : Gatsbie.Client.requestEvents o =
      ([CallEvent.timerSet, CallEvent.fetchIssued] ++ timerFiredEvents o)
        ++ [CallEvent.timerCleared, completionEvent (Gatsbie.Client.request o)] := by
    simp [Gatsbie.Client.requestEvents]
  have ht : Target.Client.requestEvents o =
      ([CallEvent.timerSet, CallEvent.fetchIssued] ++ timerFiredEvents o)
        ++ [CallEvent.timerCleared, completionEvent (Target.Client.request o)] := by
    simp [Target.Client.requestEvents]
  refine ⟨⟨?_, hg, timerCleared_not_mem_pre o⟩, ⟨?_, ht, timerCleared_not_mem_pre o⟩⟩
  · rw [hg]
    exact timerPending_append_cleared _ _ (completionEvent_eq_or _)
  · rw [ht]
    exact timerPending_append_cleared _ _ (completionEvent_eq_or _)

/-! ## C6 — addToCart local validation before any network call -/

theorem addToCartValidationError_of_missing_storeId (r : Target.AddToCartRequest)
    (hft : r.fulfillmentType = some "CURBSIDE" ∨ r.fulfillmentType = some "STORE_PICKUP")
    (hsid : r.storeId = none) :
    ∃ e, Target.addToCartValidationError r = some e ∧
      e.httpStatus = 400 ∧ e.isInvalidRequest = true := by
  have hcond : ((r.fulfillmentType == some "CURBSIDE"
      || r.fulfillmentType == some "STORE_PICKUP")
      && !(truthyOptStr r.storeId)) = true := by
    rcases hft with h | h <;> simp [h, hsid, truthyOptStr]
  unfold Target.addToCartValidationError
  simp only [hcond, if_true]
  repeat' split
  all_goals exact ⟨_, rfl, rfl, rfl⟩

/-- C6: every `addToCart` call whose `fulfillmentType` is `CURBSIDE` or
`STORE_PICKUP` and whose `storeId` is absent fails with an `APIError`
carrying `httpStatus` 400 (classifying as an invalid request), raised
locally by the validation chain — the transport is invoked zero times,
whatever it would have done. -/
theorem c6_local_validation_no_network (r : Target.AddToCartRequest) (o : FetchOutcome)
    (hft : r.fulfillmentType = some "CURBSIDE" ∨ r.fulfillmentType = some "STORE_PICKUP")
    (hsid : r.storeId = none) :
    (∃ e, (Target.Client.addToCart r o).1 = .error (.classified (.api e)) ∧
      e.httpStatus = 400 ∧ e.isInvalidRequest = true) ∧
    (Target.Client.addToCart r o).2 = 0 := by
  obtain ⟨e, he, h400, hinv⟩ := addToCartValidationError_of_missing_storeId r hft hsid
  refine ⟨⟨e, ?_, h400, hinv⟩, ?_⟩ <;> simp [Target.Client.addToCart, he]

/-- C6 witness: a concrete `CURBSIDE` request without a `storeId` raises
the local invalid-request error with the transport stub never invoked. -/
theorem c6_witness :
    (Target.Client.addToCart
        { tcin := "86777236", quantity := 1, accessToken := "tok",
          proxy := "http://u:p@h:1", fulfillmentType := some "CURBSIDE",
          storeId := none } .thrownNonError).2 = 0 ∧
    (Target.Client.addToCart
        { tcin := "86777236", quantity := 1, accessToken := "tok",
          proxy := "http://u:p@h:1", fulfillmentType := some "CURBSIDE",
          storeId := none } .thrownNonError).1 =
      .error (.classified (.api (Target.localInvalid
        "storeId is required when fulfillmentType is CURBSIDE or STORE_PICKUP"))) :=
  ⟨(c6_local_validation_no_network
      { tcin := "86777236", quantity := 1, accessToken := "tok",
        proxy := "http://u:p@h:1", fulfillmentType := some "CURBSIDE",
        storeId := none } .thrownNonError (Or.inl rfl) rfl).2, rfl⟩

/-! ## C10 — optional inputs are serialized iff truthy -/

theorem lookupField_append_left_none (l₁ l₂ : List (String × JValue)) (k : String)
    (h1 : lookupField l₁ k = none) :
    lookupField (l₁ ++ l₂) k = lookupField l₂ k := by
  rw [lookupField_append, h1]

theorem lookupField_append_right_none (l₁ l₂ : List (String × JValue)) (k : String)
    (h2 : lookupField l₂ k = none) :
    lookupField (l₁ ++ l₂) k = lookupField l₁ k := by
  rw [lookupField_append]
  cases h1 : lookupField l₁ k
  · simpa using h2
  · rfl

theorem stringifyBody_append (l₁ l₂ : List (String × Option JValue)) :
    stringifyBody (l₁ ++ l₂) = stringifyBody l₁ ++ stringifyBody l₂ :=
  List.filterMap_append l₁ l₂ _

theorem stringify_optStrEntry_isSome (k : String) (v : Option String) :
    (lookupField (stringifyBody (optStrEntry k v)) k).isSome = truthyOptStr v := by
  cases v with
  | none => rfl
  | some s =>
    by_cases hs : s == "" <;>
      simp [optStrEntry, stringifyBody, hs, lookupField, truthyOptStr]

theorem stringify_optStrEntry_ne (k k' : String) (v : Option String)
    (h : (k == k') = false) :
    lookupField (stringifyBody (optStrEntry k v)) k' = none := by
  cases v with
  | none => rfl
  | some s =>
    by_cases hs : s == "" <;>
      simp [optStrEntry, stringifyBody, hs, lookupField, h]

theorem recaptchaBase_no_action (tt p tu sk : String) (sz ti : Option JValue) :
    lookupField (stringifyBody (Gatsbie.recaptchaBaseBody tt p tu sk sz ti))
      "action" = none := by
  cases sz <;> cases ti <;> rfl

theorem recaptchaBase_no_ubd (tt p tu sk : String) (sz ti : Option JValue) :
    lookupField (stringifyBody (Gatsbie.recaptchaBaseBody tt p tu sk sz ti))
      "ubd" = none := by
  cases sz <;> cases ti <;> rfl

theorem recaptchaBase_no_sa (tt p tu sk : String) (sz ti : Option JValue) :
    lookupField (stringifyBody (Gatsbie.recaptchaBaseBody tt p tu sk sz ti))
      "sa" = none := by
  cases sz <;> cases ti <;> rfl

theorem optStrEntry_empty_eq_none (k : String) :
    optStrEntry k (some "") = optStrEntry k none := by
  simp [optStrEntry]

/-- C10: in the serialized `solveRecaptcha` (and
`solveRecaptchaEnterprise`) wire body, the `action` (resp. `ubd`, `sa`)
key is present exactly when the caller-supplied optional value is truthy —
and an explicitly supplied empty string produces the very same wire body
as an absent field. -/
theorem c10_optional_fields_iff_truthy (r : Gatsbie.RecaptchaRequest)
    (re : Gatsbie.RecaptchaEnterpriseRequest) :
    ((lookupField (stringifyBody (Gatsbie.solveRecaptchaBody r)) "action").isSome
        = truthyOptStr r.action) ∧
    ((lookupField (stringifyBody (Gatsbie.solveRecaptchaBody r)) "ubd").isSome
        = truthyOptStr r.ubd) ∧
    ((lookupField (stringifyBody (Gatsbie.solveRecaptchaEnterpriseBody re))
        "action").isSome = truthyOptStr re.action) ∧
    ((lookupField (stringifyBody (Gatsbie.solveRecaptchaEnterpriseBody re))
        "ubd").isSome = truthyOptStr re.ubd) ∧
    ((lookupField (stringifyBody (Gatsbie.solveRecaptchaEnterpriseBody re))
        "sa").isSome = truthyOptStr re.sa) ∧
    (stringifyBody (Gatsbie.solveRecaptchaBody { r with action := some "" }) =
      stringifyBody (Gatsbie.solveRecaptchaBody { r with action := none })) := by
  refine ⟨?_, ?_, ?_, ?_, ?_, ?_⟩
  · simp only [Gatsbie.solveRecaptchaBody, stringifyBody_append]
    rw [lookupField_append_right_none _ _ _
          (stringify_optStrEntry_ne "ubd" "action" r.ubd (by decide)),
        lookupField_append_left_none _ _ _
          (recaptchaBase_no_action "recaptcha" r.proxy r.targetUrl r.siteKey r.size r.title)]
    exact stringify_optStrEntry_isSome "action" r.action
  · simp only [Gatsbie.solveRecaptchaBody, stringifyBody_append]
    rw [lookupField_append_left_none _ _ _
          (by
            rw [lookupField_append_left_none _ _ _
              (recaptchaBase_no_ubd "recaptcha" r.proxy r.targetUrl r.siteKey r.size r.title)]
            exact stringify_optStrEntry_ne "action" "ubd" r.action (by decide))]
    exact stringify_optStrEntry_isSome "ubd" r.ubd
  · simp only [Gatsbie.solveRecaptchaEnterpriseBody, stringifyBody_append]
    rw [lookupField_append_right_none _ _ _
          (stringify_optStrEntry_ne "sa" "action" re.sa (by decide)),
        lookupField_append_right_none _ _ _
          (stringify_optStrEntry_ne "ubd" "action" re.ubd (by decide)),
        lookupField_append_left_none _ _ _
          (recaptchaBase_no_action "recaptcha_enterprise" re.proxy re.targetUrl
            re.siteKey re.size re.title)]
    exact stringify_optStrEntry_isSome "action" re.action
  · simp only [Gatsbie.solveRecaptchaEnterpriseBody, stringifyBody_append]
    rw [lookupField_append_right_none _ _ _
          (stringify_optStrEntry_ne "sa" "ubd" re.sa (by decide)),
        lookupField_append_left_none _ _ _
          (by
            rw [lookupField_append_left_none _ _ _
              (recaptchaBase_no_ubd "recaptcha_enterprise" re.proxy re.targetUrl
                re.siteKey re.size re.title)]
            exact stringify_optStrEntry_ne "action" "ubd" re.action (by decide))]
    exact stringify_optStrEntry_isSome "ubd" re.ubd
  · simp only [Gatsbie.solveRecaptchaEnterpriseBody, stringifyBody_append]
    rw [lookupField_append_left_none _ _ _
          (by
            rw [lookupField_append_left_none _ _ _
              (by
                rw [lookupField_append_left_none _ _ _
                  (recaptchaBase_no_sa "recaptcha_enterprise" re.proxy re.targetUrl
                    re.siteKey re.size re.title)]
                exact stringify_optStrEntry_ne "action" "sa" re.action (by decide))]
            exact stringify_optStrEntry_ne "ubd" "sa" re.ubd (by decide))]
    exact stringify_optStrEntry_isSome "sa" re.sa
  · obtain ⟨p, tu, sk, sz, ti, ac, ub⟩ := r
    simp only [Gatsbie.solveRecaptchaBody, optStrEntry_empty_eq_none]
